import Mathlib

/-!
# FreeFlow client core — shallow embedding

A shallow embedding of the core client subsystems of the FreeFlow
voice-ordering web application, together with proofs of the behavioural
properties stated in its specification.

Embedded components and their sources:

* Conversation Client (Brain Session): `src/hooks/useBrainSession.ts`
* UI Hint Deriver: `src/lib/brainUiUtils.ts`
* Cart Store: `src/state/CartContext.jsx`
* KDS API adapter: `src/lib/kdsApi.ts`
* Polling Engine: `useKDSPolling` hook
* TTS Playback Controller: `src/tts/ttsManager.ts`

Modelling conventions:

* React `useState`/`useRef` cells become fields of explicit state records;
  an event-handler body becomes a pure state-transition function.  Within one
  handler invocation the last `setX(value)` call wins, and reads of a
  state variable see the snapshot taken when the handler started — both
  behaviours are reproduced literally where they matter (see `addToCart`).
* `fetch` calls are modelled by an explicit network-outcome argument plus a
  list of issued `HttpRequest` values, so that request counts and abort
  wiring are visible to theorems.
* JavaScript truthiness of `a || b` on strings and numbers is modelled by
  `jsStrOr` / `jsNumOr` (empty string and `0` are falsy).
* `localStorage` is modelled by dedicated `persisted…` fields.
-/

/-- JS-style `a || b` for an optional string: an absent (`undefined`) or
empty (falsy) string falls through to `b`. -/
def jsStrOr (a : Option String) (b : String) : String :=
  match a with
  | some s => if s = "" then b else s
  | none => b

/-- JS-style `a || b` for an optional number: an absent (`undefined`) or
zero (falsy) number falls through to `b`. -/
def jsNumOr (a : Option Int) (b : Int) : Int :=
  match a with
  | some n => if n = 0 then b else n
  | none => b

/-- JS string `trim()`: strip leading and trailing whitespace. -/
def strTrim (s : String) : String :=
  String.mk (((s.data.dropWhile Char.isWhitespace).reverse.dropWhile
    Char.isWhitespace).reverse)

/-- Does `needle` occur at the start of `hay`? (helper for `strIncludes`). -/
def charsStartWith : List Char → List Char → Bool
  | [], _ => true
  | _ :: _, [] => false
  | a :: as, b :: bs => a == b && charsStartWith as bs

/-- Does `needle` occur contiguously anywhere in `hay`? -/
def charsContain : List Char → List Char → Bool
  | [], needle => charsStartWith needle []
  | h :: t, needle => charsStartWith needle (h :: t) || charsContain t needle

/-- JS `hay.includes(needle)` on strings. -/
def strIncludes (hay needle : String) : Bool :=
  charsContain hay.data needle.data

/-! ## Conversation Client (Brain Session) — `src/hooks/useBrainSession.ts`

The hook state (`useState` / `useRef` cells) becomes `SessionState`;
`sendMessage` becomes a pure transition parameterised by the network
outcome of its single `fetch` to `POST api/brain/v2`. -/

/-- One entry of `conversationHistory` (interface `BrainMessage`). -/
structure BrainMessage where
  role : String
  content : String
deriving DecidableEq

/-- The id carried by `response.currentRestaurant` (accessed as
`currentRestaurant?.id`, so the id itself may be absent). -/
structure CurrentRestaurant where
  id : Option String
deriving DecidableEq

/-- The fields of interface `BrainV2Response` that the embedded components
inspect.  List-valued payload fields keep only their length-relevant shape
(`List Unit`); `businessStats` is inspected solely for truthiness, so it is
modelled as presence (`Bool`).  `none` models an absent (or `null`) field. -/
structure BrainV2Response where
  ok : Bool := true
  text : Option String := none
  reply : Option String := none
  intent : Option String := none
  restaurants : Option (List Unit) := none
  menuItems : Option (List Unit) := none
  currentRestaurant : Option CurrentRestaurant := none
  businessStats : Bool := false
  orders : Option (List Unit) := none
  conversationClosed : Bool := false
  newSessionId : Option String := none
deriving DecidableEq

/-- The state cells of `useBrainSession`: `sessionId` (mirrored into
`persistedSessionId` for the `localStorage` copy), `conversationHistory`,
`isThinking`, `lastResponse`, `lastFullResponse`, `error`, and the dedupe
ref `lastMessageRef`. -/
structure SessionState where
  sessionId : String
  persistedSessionId : String
  conversationHistory : List BrainMessage
  isThinking : Bool
  lastResponse : String
  lastFullResponse : Option BrainV2Response
  error : Option String
  lastMessageRef : String
deriving DecidableEq

/-- The request body sent by `callBrainV2` (the fields that vary). -/
structure BrainRequest where
  session_id : String
  input : String
deriving DecidableEq

/-- Network outcome of the single `fetch` inside `sendMessage`: either a
parsed `BrainV2Response` (HTTP 2xx) or a thrown error (network failure or
non-2xx, both reach the same `catch`). -/
inductive BrainFetchOutcome where
  | success (resp : BrainV2Response)
  | failure (msg : String)
deriving DecidableEq

/-- `handleConversationClosed` (useBrainSession.ts, lines 163-180): when the
response carries `conversationClosed` and a truthy `newSessionId` (the guard
is JS `response.conversationClosed && response.newSessionId`, so an empty
string is falsy and does not rotate), adopt the new id (and persist it),
clear the history and the dedupe ref, and keep `lastFullResponse`
untouched. -/
def handleConversationClosed (s : SessionState) (resp : BrainV2Response) :
    SessionState :=
  match resp.conversationClosed, resp.newSessionId with
  | true, some nid =>
      if nid = "" then s
      else
        { s with
          sessionId := nid
          persistedSessionId := nid
          conversationHistory := []
          lastMessageRef := "" }
  | _, _ => s

/-- Result of one `sendMessage` invocation: the poststate, the value
returned to the caller, and the brain requests issued on the network. -/
structure SendOutcome where
  state : SessionState
  returned : Option BrainV2Response
  requests : List BrainRequest
deriving DecidableEq

/-- `sendMessage` (useBrainSession.ts, lines 186-237).  Trims the input,
silently no-ops on empty or duplicate text, writes the dedupe ref before
the request, and on success appends the user/assistant pair to the history
and runs the conversation-boundary check. -/
def sendMessage (s : SessionState) (text : String) (net : BrainFetchOutcome) :
    SendOutcome :=
  let trimmed := strTrim text
  if trimmed = "" ∨ trimmed = s.lastMessageRef then
    { state := s, returned := none, requests := [] }
  else
    let s1 := { s with
      lastMessageRef := trimmed
      isThinking := true
      error := none
      lastResponse := ""
      lastFullResponse := none }
    let req : BrainRequest := { session_id := s.sessionId, input := trimmed }
    match net with
    | .success resp =>
        let amberReply := jsStrOr resp.reply (jsStrOr resp.text "")
        let s2 := { s1 with
          lastResponse := amberReply
          lastFullResponse := some resp
          conversationHistory := s1.conversationHistory ++
            [{ role := "user", content := trimmed },
             { role := "assistant", content := amberReply }] }
        let s3 := if resp.conversationClosed then
            handleConversationClosed s2 resp
          else s2
        { state := { s3 with isThinking := false }
          returned := some resp
          requests := [req] }
    | .failure _ =>
        { state := { s1 with
            error := some "Przepraszam, mam problem z połączeniem."
            lastResponse := ""
            isThinking := false }
          returned := none
          requests := [req] }

/-- `clearHistory` (useBrainSession.ts, lines 242-246). -/
def clearHistory (s : SessionState) : SessionState :=
  { s with
    conversationHistory := []
    lastMessageRef := ""
    lastFullResponse := none }

/-- `startNewConversation` (useBrainSession.ts, lines 251-257), with the
freshly generated session id passed in explicitly. -/
def startNewConversation (s : SessionState) (newId : String) : SessionState :=
  clearHistory { s with sessionId := newId, persistedSessionId := newId }

/-! ## UI Hint Deriver — `src/lib/brainUiUtils.ts` -/

/-- The panel selected by `deriveUIHints`. -/
inductive Panel where
  | restaurants
  | menu
  | kds
  | business
  | none
deriving DecidableEq

/-- The `context` object attached to the `menu` hint. -/
structure UIContext where
  restaurantId : Option String
deriving DecidableEq

/-- Interface `UIHints`. -/
structure UIHints where
  panel : Panel
  context : Option UIContext := Option.none
deriving DecidableEq

/-- `deriveUIHints` (brainUiUtils.ts, lines 4-36).  The argument is
`Option`-wrapped because the function guards on a missing payload. -/
def deriveUIHints (response : Option BrainV2Response) : UIHints :=
  match response with
  | Option.none => { panel := .none }
  | some r =>
    if (r.restaurants.getD []).length > 0 then
      { panel := .restaurants }
    else if (r.menuItems.getD []).length > 0 then
      { panel := .menu, context := some { restaurantId := r.currentRestaurant.bind (·.id) } }
    else if r.businessStats || r.orders.isSome then
      { panel := .business }
    else
      let intent := r.intent.getD ""
      if strIncludes intent "kds" || intent = "show_kds" || intent = "kitchen_display" then
        { panel := .kds }
      else if strIncludes intent "business" || intent = "show_stats" || intent = "admin_panel" then
        { panel := .business }
      else
        { panel := .none }

/-! ## Cart Store — `src/state/CartContext.jsx`

The provider state (`cart`, `restaurant`) becomes `CartState`; `addToCart`
becomes a transition parameterised by the `window.confirm` answer.  Prices
and quantities are JS numbers, modelled as integers (no arithmetic beyond
addition and comparison occurs). -/

/-- The restaurant object bound to the cart. -/
structure CartRestaurant where
  id : String
  name : String
deriving DecidableEq

/-- One cart entry (`{ ...item, quantity }`). -/
structure CartEntry where
  id : String
  name : String
  price : Int
  quantity : Int
deriving DecidableEq

/-- The argument of `addToCart`: `quantity` is `none` when the caller left
it unspecified (`undefined`). -/
structure CartItemInput where
  id : String
  name : String
  price : Int
  quantity : Option Int := none
deriving DecidableEq

/-- The provider state of `CartContext`.  The `localStorage` copy tracks
`cart`/`restaurant` one-to-one (the persistence effects write exactly the
new values), so it is not duplicated here. -/
structure CartState where
  cart : List CartEntry
  restaurant : Option CartRestaurant
deriving DecidableEq

/-- The body of `addToCart` after the restaurant check: JS
`cart.findIndex(ci => ci.id === item.id)` followed by an in-place quantity
increment of the first match, or an append at the end. -/
def addItemToEntries : List CartEntry → CartItemInput → Int → List CartEntry
  | [], item, qta =>
      [{ id := item.id, name := item.name, price := item.price, quantity := qta }]
  | e :: rest, item, qta =>
      if e.id = item.id then
        { e with quantity := e.quantity + qta } :: rest
      else
        e :: addItemToEntries rest item qta

/-- `addToCart` (CartContext.jsx, lines 66-102).  `confirmSwitch` is the
answer of the `window.confirm` dialog shown when the cart is bound to a
different restaurant.  Note a faithfulness point: in the switch-confirmed
path the source calls `setCart([])` but then computes the final
`setCart(...)` from the stale `cart` snapshot, so the old entries survive;
the model reproduces that. -/
def addToCart (s : CartState) (item : CartItemInput) (restaurantData : CartRestaurant)
    (confirmSwitch : Bool) : CartState :=
  let quantityToAdd := jsNumOr item.quantity 1
  match s.restaurant with
  | some r =>
      if r.id ≠ restaurantData.id then
        if ¬confirmSwitch then s
        else
          { cart := addItemToEntries s.cart item quantityToAdd
            restaurant := some restaurantData }
      else
        { cart := addItemToEntries s.cart item quantityToAdd
          restaurant := some r }
  | Option.none =>
      { cart := addItemToEntries s.cart item quantityToAdd
        restaurant := some restaurantData }

/-- Quantity of the entry the UI sees for id `i`: the first entry with that
id (JS `findIndex` semantics), `0` when absent. -/
def qtyOf (cart : List CartEntry) (i : String) : Int :=
  match cart.find? (fun e => e.id == i) with
  | some e => e.quantity
  | Option.none => 0

/-! ## KDS API adapter — `src/lib/kdsApi.ts`

`fetchKDSOrders` fetches `GET api/admin/orders?limit=100` and then applies a
pure filter/map to the raw records; that pure part is embedded below, with
the network layer supplied as the list of raw records.  The action
functions are embedded as request-issuing transitions parameterised by the
network outcome. -/

/-- `BackendOrderStatus` (kdsApi.ts, lines 20-26). -/
inductive BackendOrderStatus where
  | pending
  | new
  | preparing
  | ready
  | delivered
  | cancelled
deriving DecidableEq

/-- `OrderChannel` (kdsApi.ts, line 39). -/
inductive OrderChannel where
  | restaurant
  | hotel
  | delivery
deriving DecidableEq

/-- A raw item of an admin-API order: the mapper accepts both plain strings
and objects with optional `name`/`dish_name`/`quantity`/`qty` fields. -/
inductive RawOrderItem where
  | str (s : String)
  | obj (name : Option String) (dish_name : Option String)
        (quantity : Option Int) (qty : Option Int)
deriving DecidableEq

/-- A raw order record returned by `GET api/admin/orders` (the fields the
adapter reads).  `items` is `none` when the field is not an array. -/
structure RawOrder where
  id : String
  status : BackendOrderStatus
  items : Option (List RawOrderItem) := none
  totalPrice : Option Int := none
  notes : Option String := none
  createdAt : String := ""
  updatedAt : Option String := none
  customerName : Option String := none
  restaurantId : Option String := none
deriving DecidableEq

/-- `KDSOrderItem` (kdsApi.ts, lines 44-52). -/
structure KDSOrderItem where
  id : String
  name : String
  quantity : Int
  station : String
  done : Bool
deriving DecidableEq

/-- `KDSOrder` (kdsApi.ts, lines 57-72).  `total_formatted` is a
locale-formatted presentation copy of `total` and is not modelled. -/
structure KDSOrder where
  id : String
  order_number : String
  channel : OrderChannel
  status : BackendOrderStatus
  items : List KDSOrderItem
  total : Int
  location : String
  priority : Bool
  notes : Option String
  created_at : String
  updated_at : Option String
  customer_name : Option String
  restaurant_id : Option String
deriving DecidableEq

/-- Stats block of `KDSDashboardResponse`. -/
structure KDSStats where
  new_count : Nat
  preparing_count : Nat
  ready_count : Nat
  avg_time_minutes : Nat
deriving DecidableEq

/-- `KDSDashboardResponse` (kdsApi.ts, lines 77-87); `last_updated` is the
wall-clock tick at which the response was built. -/
structure KDSDashboardResponse where
  ok : Bool
  orders : List KDSOrder
  stats : KDSStats
  last_updated : Nat
deriving DecidableEq

/-- Item mapping inside `fetchKDSOrders` (kdsApi.ts, lines 231-237):
`name: i.name || i.dish_name || (typeof i === "string" ? i : "Pozycja")`,
`quantity: i.quantity || i.qty || 1`, fixed station and `done:false`. -/
def mapRawItem (idx : Nat) (i : RawOrderItem) : KDSOrderItem :=
  match i with
  | .str s =>
      { id := "item-" ++ toString idx
        name := s
        quantity := 1
        station := "kuchnia"
        done := false }
  | .obj name dish_name quantity qty =>
      { id := "item-" ++ toString idx
        name := jsStrOr name (jsStrOr dish_name "Pozycja")
        quantity := jsNumOr quantity (jsNumOr qty 1)
        station := "kuchnia"
        done := false }

/-- The status rewrite in the order mapping
(`status: o.status === "pending" ? "new" : o.status`). -/
def mapOrderStatus (s : BackendOrderStatus) : BackendOrderStatus :=
  match s with
  | .pending => .new
  | s => s

/-- Order mapping inside `fetchKDSOrders` (kdsApi.ts, lines 226-247). -/
def mapRawOrder (o : RawOrder) : KDSOrder :=
  { id := o.id
    order_number := "#" ++ o.id.take 4
    channel := .restaurant
    status := mapOrderStatus o.status
    items := match o.items with
      | some l => l.enum.map (fun p => mapRawItem p.1 p.2)
      | Option.none => []
    total := jsNumOr o.totalPrice 0
    location := "Stolik"
    priority := false
    notes := o.notes
    created_at := o.createdAt
    updated_at := o.updatedAt
    customer_name := o.customerName
    restaurant_id := o.restaurantId }

namespace kdsApi

/-- The pure core of `fetchKDSOrders` (kdsApi.ts, lines 210-262): filter the
raw records to active orders, map them to `KDSOrder`, and compute the stats
block.  `tick` stands for `new Date().toISOString()`. -/
def fetchKDSOrders (raws : List RawOrder) (tick : Nat) : KDSDashboardResponse :=
  let activeOrders := raws.filter
    (fun o => o.status != BackendOrderStatus.cancelled &&
              o.status != BackendOrderStatus.delivered)
  let orders := activeOrders.map mapRawOrder
  { ok := true
    orders := orders
    stats := {
      new_count := (orders.filter (fun o => o.status == BackendOrderStatus.new ||
                                            o.status == BackendOrderStatus.pending)).length
      preparing_count := (orders.filter (fun o => o.status == BackendOrderStatus.preparing)).length
      ready_count := (orders.filter (fun o => o.status == BackendOrderStatus.ready)).length
      avg_time_minutes := 15 }
    last_updated := tick }

end kdsApi

/-! ## Polling Engine — `useKDSPolling` hook

The hook state becomes `PollState`.  `fetchData` is split at its single
`await`: `fetchDataStart` is the synchronous prefix (abort the previous
controller, create a new one, clear the error, issue the GET), and
`fetchDataResolve` applies the network outcome.  A request records which
abort signal (controller id) was attached to it — `none` when the `fetch`
call passed no signal. -/

/-- An HTTP request issued by the embedded code.  `abortSignal` is the id of
the `AbortController` whose signal was passed to `fetch`, or `none` when no
signal was attached. -/
structure HttpRequest where
  method : String
  path : String
  body : Option String := none
  abortSignal : Option Nat := none
deriving DecidableEq

/-- A request is cancelled by past aborts exactly when the signal attached
to it belongs to an aborted controller. -/
def requestCancelled (r : HttpRequest) (abortedControllers : List Nat) : Bool :=
  match r.abortSignal with
  | some c => abortedControllers.contains c
  | none => false

/-- Stats as exposed by the hook (camel-cased copy of the response stats). -/
structure KDSStatsView where
  newCount : Nat
  preparingCount : Nat
  readyCount : Nat
  avgTimeMinutes : Nat
deriving DecidableEq

/-- The state cells of `useKDSPolling`, plus abort bookkeeping:
`abortControllerId` is the ref holding the current controller,
`abortedControllers` the set of controllers aborted so far, and
`nextControllerId` a counter minting fresh controller ids. -/
structure PollState where
  orders : List KDSOrder
  stats : KDSStatsView
  isLoading : Bool
  error : Option String
  lastUpdated : Option Nat
  abortControllerId : Option Nat
  abortedControllers : List Nat
  nextControllerId : Nat
deriving DecidableEq

/-- Initial hook state (useKDSPolling, lines 58-72). -/
def initPollState : PollState :=
  { orders := []
    stats := { newCount := 0, preparingCount := 0, readyCount := 0, avgTimeMinutes := 0 }
    isLoading := true
    error := none
    lastUpdated := none
    abortControllerId := none
    abortedControllers := []
    nextControllerId := 0 }

/-- Network outcome of one poll fetch: the parsed raw records (HTTP 2xx),
a thrown error, or an abort rejection. -/
inductive PollFetchOutcome where
  | success (raws : List RawOrder) (tick : Nat)
  | failure (msg : String)
  | abortError
deriving DecidableEq

/-- Result of the synchronous prefix of `fetchData`. -/
structure FetchStart where
  state : PollState
  controllerId : Nat
  request : HttpRequest
deriving DecidableEq

namespace useKDSPolling

/-- Synchronous prefix of `fetchData` (useKDSPolling, lines 77-86): abort
the previous controller, install a fresh one, clear the error, and let
`fetchKDSOrders` issue the GET.  Note `fetchKDSOrders` calls
`fetch(url, { headers })` — the freshly created controller signal is never
attached to the request, hence `abortSignal := none`. -/
def fetchDataStart (s : PollState) : FetchStart :=
  let aborted := match s.abortControllerId with
    | some c => s.abortedControllers ++ [c]
    | none => s.abortedControllers
  let cid := s.nextControllerId
  { state := { s with
      abortedControllers := aborted
      abortControllerId := some cid
      nextControllerId := cid + 1
      error := none }
    controllerId := cid
    request := { method := "GET", path := "api/admin/orders?limit=100" } }

/-- Resolution of `fetchData` (useKDSPolling, lines 84-107): on a response
with `ok` replace orders/stats wholesale and record `lastUpdated`; on an
abort rejection return silently; on any other error record the message and
keep the cached data.  `setIsLoading(false)` runs in all three paths. -/
def fetchDataResolve (s : PollState) (net : PollFetchOutcome) : PollState :=
  match net with
  | .success raws tick =>
      let response := kdsApi.fetchKDSOrders raws tick
      if response.ok then
        { s with
          orders := response.orders
          stats := {
            newCount := response.stats.new_count
            preparingCount := response.stats.preparing_count
            readyCount := response.stats.ready_count
            avgTimeMinutes := response.stats.avg_time_minutes }
          lastUpdated := some response.last_updated
          isLoading := false }
      else
        { s with isLoading := false }
  | .failure msg =>
      { s with error := some msg, isLoading := false }
  | .abortError =>
      { s with isLoading := false }

/-- `fetchData` as one transition: the synchronous prefix followed by the
resolution of its network outcome. -/
def fetchData (s : PollState) (net : PollFetchOutcome) : PollState × List HttpRequest :=
  let fs := fetchDataStart s
  (fetchDataResolve fs.state net, [fs.request])

/-- `refresh` (useKDSPolling, lines 113-116): set the loading flag and run
`fetchData`. -/
def refresh (s : PollState) (net : PollFetchOutcome) : PollState × List HttpRequest :=
  fetchData { s with isLoading := true } net

end useKDSPolling

/-! ### KDS action API functions (`src/lib/kdsApi.ts`, lines 273-373) -/

/-- Result shape of the kdsApi action functions. -/
structure KDSActionResult where
  ok : Bool
  error : Option String := none
deriving DecidableEq

/-- Network outcome of one PATCH action request: HTTP 2xx, a non-2xx
response (`!response.ok`), or a thrown network error. -/
inductive ActionNetOutcome where
  | success
  | httpError (msg : String)
  | networkError (msg : String)
deriving DecidableEq

namespace kdsApi

/-- Shared body of `startOrder` / `markOrderReady` / `completeOrder`: one
`PATCH api/orders/:id` with the given status, `ok:false` plus a message on
a non-2xx response or a thrown error. -/
def patchOrderStatus (orderId : String) (status : String) (net : ActionNetOutcome) :
    List HttpRequest × KDSActionResult :=
  let req : HttpRequest := {
    method := "PATCH"
    path := "api/orders/" ++ orderId
    body := some status }
  match net with
  | .success => ([req], { ok := true })
  | .httpError msg => ([req], { ok := false, error := some msg })
  | .networkError msg => ([req], { ok := false, error := some msg })

/-- `startOrder` (kdsApi.ts, lines 273-293). -/
def startOrder (orderId : String) (net : ActionNetOutcome) :
    List HttpRequest × KDSActionResult :=
  patchOrderStatus orderId "preparing" net

/-- `markOrderReady` (kdsApi.ts, lines 299-319). -/
def markOrderReady (orderId : String) (net : ActionNetOutcome) :
    List HttpRequest × KDSActionResult :=
  patchOrderStatus orderId "ready" net

/-- `toggleOrderItem` (kdsApi.ts, lines 324-330): a client-side stub — it
contacts no backend and always reports success. -/
def toggleOrderItem (_orderId : String) (_itemIndex : Nat) :
    List HttpRequest × KDSActionResult :=
  ([], { ok := true })

/-- `completeOrder` (kdsApi.ts, lines 336-356). -/
def completeOrder (orderId : String) (net : ActionNetOutcome) :
    List HttpRequest × KDSActionResult :=
  patchOrderStatus orderId "delivered" net

/-- `bumpOrder` (kdsApi.ts, lines 362-364): alias for `markOrderReady`. -/
def bumpOrder (orderId : String) (net : ActionNetOutcome) :
    List HttpRequest × KDSActionResult :=
  markOrderReady orderId net

/-- `recallLastOrder` (kdsApi.ts, lines 370-373): a stub — it contacts no
backend and always reports failure. -/
def recallLastOrder : List HttpRequest × KDSActionResult :=
  ([], { ok := false, error := some "Not implemented" })

end kdsApi

/-! ### KDS action dispatchers (`useKDSPolling`, lines 148-194) -/

/-- Result of one dispatcher invocation: the poststate, all HTTP requests
issued (action request first, then any refresh request), and the boolean
resolved to the caller. -/
structure DispatchResult where
  state : PollState
  requests : List HttpRequest
  returned : Bool
deriving DecidableEq

namespace useKDSPolling

/-- Shared dispatcher shape: run the api call; on `ok` await `refresh`
(with its own network outcome) before resolving `true`; otherwise resolve
`false` with no state change. -/
def dispatchAction (s : PollState) (api : List HttpRequest × KDSActionResult)
    (refreshNet : PollFetchOutcome) : DispatchResult :=
  let res := api.2
  if res.ok then
    let r := refresh s refreshNet
    { state := r.1, requests := api.1 ++ r.2, returned := true }
  else
    { state := s, requests := api.1, returned := false }

/-- Dispatcher `startOrder` (useKDSPolling, lines 148-154). -/
def startOrder (s : PollState) (orderId : String) (net : ActionNetOutcome)
    (refreshNet : PollFetchOutcome) : DispatchResult :=
  dispatchAction s (kdsApi.startOrder orderId net) refreshNet

/-- Dispatcher `markOrderReady` (useKDSPolling, lines 156-162). -/
def markOrderReady (s : PollState) (orderId : String) (net : ActionNetOutcome)
    (refreshNet : PollFetchOutcome) : DispatchResult :=
  dispatchAction s (kdsApi.markOrderReady orderId net) refreshNet

/-- Dispatcher `toggleItem` (useKDSPolling, lines 164-170). -/
def toggleItem (s : PollState) (orderId : String) (itemIndex : Nat)
    (refreshNet : PollFetchOutcome) : DispatchResult :=
  dispatchAction s (kdsApi.toggleOrderItem orderId itemIndex) refreshNet

/-- Dispatcher `completeOrder` (useKDSPolling, lines 172-178). -/
def completeOrder (s : PollState) (orderId : String) (net : ActionNetOutcome)
    (refreshNet : PollFetchOutcome) : DispatchResult :=
  dispatchAction s (kdsApi.completeOrder orderId net) refreshNet

/-- Dispatcher `bumpOrder` (useKDSPolling, lines 180-186). -/
def bumpOrder (s : PollState) (orderId : String) (net : ActionNetOutcome)
    (refreshNet : PollFetchOutcome) : DispatchResult :=
  dispatchAction s (kdsApi.bumpOrder orderId net) refreshNet

/-- Dispatcher `recallLastOrder` (useKDSPolling, lines 188-194). -/
def recallLastOrder (s : PollState) (refreshNet : PollFetchOutcome) : DispatchResult :=
  dispatchAction s kdsApi.recallLastOrder refreshNet

end useKDSPolling

/-- Number of mutating (non-GET) requests in a request list. -/
def mutatingCount (reqs : List HttpRequest) : Nat :=
  (reqs.filter (fun r => r.method != "GET")).length

/-! ## TTS Playback Controller — `src/tts/ttsManager.ts`

The manager fields become `TTSState`.  The chunked playback loop is
embedded as a recursion over the queue parameterised by a stop schedule:
`stopAt = some t` means a concurrent `stop()` call runs at suspension
point `t` (even suspension points are chunk playbacks, odd ones the
inter-chunk pauses).  `speak` installs only an `onend` handler, so
synthesis events for the simple mode are handled by `speakHandleEvent`. -/

/-- The fields of class `TTSManager` (ttsManager.ts, lines 7-15).  Audio
elements and abort controllers are identified by numeric handles. -/
structure TTSState where
  utterance : Option String
  currentAudio : Option Nat
  currentController : Option Nat
  chunkQueue : List String
  isPlaying : Bool
deriving DecidableEq

/-- A manager with nothing registered or playing. -/
def initTTSState : TTSState :=
  { utterance := none
    currentAudio := none
    currentController := none
    chunkQueue := []
    isPlaying := false }

/-- A synthesis event delivered to the current utterance. -/
inductive SynthEvent where
  | ended
  | error (kind : String)
deriving DecidableEq

namespace TTSManager

/-- `stop` (ttsManager.ts, lines 20-43): clear the chunk queue and playing
flag, cancel synthesis and drop the utterance handle, pause and drop the
audio element, abort and drop the fetch controller. -/
def stop (_s : TTSState) : TTSState :=
  { utterance := none
    currentAudio := none
    currentController := none
    chunkQueue := []
    isPlaying := false }

/-- `speak` (ttsManager.ts, lines 191-200), simple mode: `stop()`, then
start native synthesis of `text` and record the utterance handle. -/
def speak (s : TTSState) (text : String) : TTSState :=
  { stop s with utterance := some text }

end TTSManager

/-- Event handling for the simple-mode utterance started by `speak`
(ttsManager.ts, lines 197-199): only `onend` is installed — it clears the
handle; no `onerror` handler exists, so an error event leaves the state
unchanged, and no error is ever surfaced to the caller (the returned
`Option String` is the surfaced playback failure, always `none`). -/
def speakHandleEvent (s : TTSState) (e : SynthEvent) : TTSState × Option String :=
  match e with
  | .ended => ({ s with utterance := none }, none)
  | .error _ => (s, none)

/-- The chunk loop of `playChunked` (ttsManager.ts, lines 156-176),
parameterised by the stop schedule.  Each queue element is shifted and
spoken (suspension point `t`); a concurrent `stop()` at `t` interrupts the
utterance, whose `onerror` resolves on "interrupted", after which the loop
re-checks `chunkQueue`/`isPlaying` and exits.  Between chunks the loop
pauses (suspension point `t+1`); a `stop()` during the pause likewise makes
the loop exit.  Returns the chunks whose playback started and whether the
returned promise rejected (the loop catches chunk errors, so it never
does). -/
def playChunkedLoop (stopAt : Option Nat) :
    List String → Nat → List String → List String × Bool
  | [], _, played => (played, false)
  | c :: rest, t, played =>
      let played2 := played ++ [c]
      if stopAt = some t then
        (played2, false)
      else
        match rest with
        | [] => (played2, false)
        | _ :: _ =>
            if stopAt = some (t + 1) then
              (played2, false)
            else
              playChunkedLoop stopAt rest (t + 2) played2

namespace TTSManager

/-- `playChunked` (ttsManager.ts, lines 142-179): `stop()`, early return on
an empty chunk list, then the chunk loop starting at suspension point 0. -/
def playChunked (chunks : List String) (stopAt : Option Nat) : List String × Bool :=
  match chunks with
  | [] => ([], false)
  | _ :: _ => playChunkedLoop stopAt chunks 0 []

end TTSManager

/-! ## Theorems -/

/-- C7: `deriveUIHints` is a pure, deterministic function of the response
payload (it is a Lean function of the payload alone), and its result follows
the priority order, first match wins: non-empty restaurants list →
`restaurants`; else non-empty menuItems list → `menu` with the current
restaurant id as context; else presence of businessStats or an orders field
→ `business`; else intent-string matching yields `kds` or `business`;
otherwise `none` — in particular the empty payload yields `none`. -/
theorem deriveUIHints_priority (r : BrainV2Response) :
    ((r.restaurants.getD []).length > 0 →
      deriveUIHints (some r) = { panel := .restaurants }) ∧
    (¬ (r.restaurants.getD []).length > 0 →
     (r.menuItems.getD []).length > 0 →
      deriveUIHints (some r) =
        { panel := .menu
          context := some { restaurantId := r.currentRestaurant.bind (·.id) } }) ∧
    (¬ (r.restaurants.getD []).length > 0 →
     ¬ (r.menuItems.getD []).length > 0 →
     (r.businessStats || r.orders.isSome) = true →
      deriveUIHints (some r) = { panel := .business }) ∧
    (¬ (r.restaurants.getD []).length > 0 →
     ¬ (r.menuItems.getD []).length > 0 →
     (r.businessStats || r.orders.isSome) = false →
     (strIncludes (r.intent.getD "") "kds" || r.intent.getD "" = "show_kds" ||
        r.intent.getD "" = "kitchen_display") = true →
      deriveUIHints (some r) = { panel := .kds }) ∧
    (¬ (r.restaurants.getD []).length > 0 →
     ¬ (r.menuItems.getD []).length > 0 →
     (r.businessStats || r.orders.isSome) = false →
     (strIncludes (r.intent.getD "") "kds" || r.intent.getD "" = "show_kds" ||
        r.intent.getD "" = "kitchen_display") = false →
     (strIncludes (r.intent.getD "") "business" || r.intent.getD "" = "show_stats" ||
        r.intent.getD "" = "admin_panel") = true →
      deriveUIHints (some r) = { panel := .business }) ∧
    (¬ (r.restaurants.getD []).length > 0 →
     ¬ (r.menuItems.getD []).length > 0 →
     (r.businessStats || r.orders.isSome) = false →
     (strIncludes (r.intent.getD "") "kds" || r.intent.getD "" = "show_kds" ||
        r.intent.getD "" = "kitchen_display") = false →
     (strIncludes (r.intent.getD "") "business" || r.intent.getD "" = "show_stats" ||
        r.intent.getD "" = "admin_panel") = false →
      deriveUIHints (some r) = { panel := .none }) ∧
    deriveUIHints (some {}) = { panel := .none } ∧
    deriveUIHints Option.none = { panel := .none } := by
  refine ⟨?_, ?_, ?_, ?_, ?_, ?_, by decide, rfl⟩
  · intro h1
    simp [deriveUIHints, h1]
  · intro h1 h2
    simp [deriveUIHints, h1, h2]
  · intro h1 h2 h3
    simp [deriveUIHints, h1, h2, h3]
  · intro h1 h2 h3 h4
    simp [deriveUIHints, h1, h2, h3, h4]
  · intro h1 h2 h3 h4 h5
    simp [deriveUIHints, h1, h2, h3, h4, h5]
  · intro h1 h2 h3 h4 h5
    simp [deriveUIHints, h1, h2, h3, h4, h5]

/-- Witness for C7 at concrete payloads: a one-restaurant payload selects
the restaurants panel, and an orders-bearing payload selects business. -/
theorem deriveUIHints_priority_witness :
    deriveUIHints (some { restaurants := some [()] }) = { panel := .restaurants } ∧
    deriveUIHints (some { orders := some [] }) = { panel := .business } :=
  ⟨(deriveUIHints_priority { restaurants := some [()] }).1 (by decide),
   (deriveUIHints_priority { orders := some [] }).2.2.1 (by decide) (by decide) (by decide)⟩

/-- C5: for a chunk sequence `[a, b, c]`, a concurrent `stop()` that runs
after `playChunked` started but before chunk `b` starts (suspension point 0,
during the playback of `a`, or suspension point 1, the pause after it)
leaves exactly the first chunk played — `b` and `c` never play — and the
chunk loop exits without throwing to the caller. -/
theorem playChunked_stop_before_second (a b c : String) (k : Nat) (hk : k ≤ 1) :
    TTSManager.playChunked [a, b, c] (some k) = ([a], false) := by
  interval_cases k <;> rfl

/-- Witness for C5: stopping during the first pause plays only `"raz"`. -/
theorem playChunked_stop_before_second_witness :
    (1 : Nat) ≤ 1 ∧
    TTSManager.playChunked ["raz", "dwa", "trzy"] (some 1) = (["raz"], false) :=
  ⟨by decide, playChunked_stop_before_second "raz" "dwa" "trzy" 1 (by decide)⟩

/-- C8 counterexample: the claim states that an "interrupted" synthesis
error clears the internal utterance handle; but the simple-mode `speak`
installs no `onerror` handler, so after `speak` on a fresh manager an
interrupted-error event leaves the handle still set. -/
theorem speak_interrupted_leaves_handle :
    (speakHandleEvent (TTSManager.speak initTTSState "dzien dobry")
        (.error "interrupted")).1.utterance = some "dzien dobry" ∧
    some "dzien dobry" ≠ (Option.none : Option String) := by
  exact ⟨rfl, by decide⟩

/-- C8 (amended): `speak` in simple mode first performs a full `stop()` and
then records the new utterance handle; the handle is cleared only on natural
completion (`onend`); since no error handler is installed, every synthesis
error event — interrupted, canceled or any other kind — leaves the manager
state unchanged and surfaces nothing to the caller (no playback failure is
ever raised). -/
theorem speak_event_semantics (s : TTSState) (text : String) :
    TTSManager.speak s text = { TTSManager.stop s with utterance := some text } ∧
    speakHandleEvent (TTSManager.speak s text) .ended =
      ({ TTSManager.speak s text with utterance := none }, none) ∧
    ∀ kind : String,
      speakHandleEvent (TTSManager.speak s text) (.error kind) =
        (TTSManager.speak s text, none) :=
  ⟨rfl, rfl, fun _ => rfl⟩

/-- C4: evaluation of `fetchData` at the failing input.  The GET issued via
`fetchKDSOrders` carries no abort signal, so when a second `fetchData`
starts while the first request is pending, the first controller is aborted
but neither request is cancelled — two poll fetches are in flight, contrary
to the claimed at-most-one-in-flight guarantee. -/
theorem fetchData_abort_not_wired :
    (∀ s : PollState, (useKDSPolling.fetchDataStart s).request.abortSignal = none) ∧
    (useKDSPolling.fetchDataStart initPollState).state.abortControllerId = some 0 ∧
    ((useKDSPolling.fetchDataStart
        (useKDSPolling.fetchDataStart initPollState).state).state.abortedControllers =
      [(useKDSPolling.fetchDataStart initPollState).controllerId]) ∧
    requestCancelled (useKDSPolling.fetchDataStart initPollState).request
      ((useKDSPolling.fetchDataStart
        (useKDSPolling.fetchDataStart initPollState).state).state.abortedControllers) = false ∧
    requestCancelled (useKDSPolling.fetchDataStart
        (useKDSPolling.fetchDataStart initPollState).state).request
      ((useKDSPolling.fetchDataStart
        (useKDSPolling.fetchDataStart initPollState).state).state.abortedControllers) = false :=
  ⟨fun _ => rfl, rfl, rfl, rfl, rfl⟩

/-- C2 counterexample: the `toggleItem` dispatcher issues zero mutating
backend requests on an invocation (the kdsApi stub contacts no backend),
refuting the claim that every dispatcher issues exactly one. -/
theorem toggleItem_issues_no_mutating_request :
    mutatingCount (useKDSPolling.toggleItem initPollState "o1" 0
      (.success [] 0)).requests = 0 ∧
    (0 : Nat) ≠ 1 := ⟨rfl, by decide⟩

/-- C2 (amended): each KDS action dispatcher issues at most one mutating
backend request per invocation — `startOrder`, `markOrderReady`,
`completeOrder` and `bumpOrder` issue exactly one PATCH; `toggleItem` issues
none and always reports success (client-side stub); `recallLastOrder`
issues none and always reports failure.  Whenever the result is `ok=true`
the dispatcher performs a refresh from the server before resolving `true`
(the refresh GET follows the action request and the poststate is the
refreshed state); on failure it resolves `false` without throwing and
leaves the cached orders and stats unchanged (no optimistic update). -/
theorem kds_dispatchers_semantics (s : PollState) (orderId : String)
    (itemIndex : Nat) (msg : String) (rnet : PollFetchOutcome) :
    (useKDSPolling.startOrder s orderId .success rnet =
      { state := (useKDSPolling.refresh s rnet).1
        requests := { method := "PATCH", path := "api/orders/" ++ orderId,
                      body := some "preparing" } :: (useKDSPolling.refresh s rnet).2
        returned := true }) ∧
    mutatingCount (useKDSPolling.startOrder s orderId .success rnet).requests = 1 ∧
    (useKDSPolling.startOrder s orderId (.httpError msg) rnet =
      { state := s
        requests := [{ method := "PATCH", path := "api/orders/" ++ orderId,
                       body := some "preparing" }]
        returned := false }) ∧
    (useKDSPolling.startOrder s orderId (.networkError msg) rnet =
      { state := s
        requests := [{ method := "PATCH", path := "api/orders/" ++ orderId,
                       body := some "preparing" }]
        returned := false }) ∧
    (useKDSPolling.markOrderReady s orderId .success rnet =
      { state := (useKDSPolling.refresh s rnet).1
        requests := { method := "PATCH", path := "api/orders/" ++ orderId,
                      body := some "ready" } :: (useKDSPolling.refresh s rnet).2
        returned := true }) ∧
    mutatingCount (useKDSPolling.markOrderReady s orderId .success rnet).requests = 1 ∧
    (useKDSPolling.markOrderReady s orderId (.httpError msg) rnet =
      { state := s
        requests := [{ method := "PATCH", path := "api/orders/" ++ orderId,
                       body := some "ready" }]
        returned := false }) ∧
    (useKDSPolling.markOrderReady s orderId (.networkError msg) rnet =
      { state := s
        requests := [{ method := "PATCH", path := "api/orders/" ++ orderId,
                       body := some "ready" }]
        returned := false }) ∧
    (useKDSPolling.completeOrder s orderId .success rnet =
      { state := (useKDSPolling.refresh s rnet).1
        requests := { method := "PATCH", path := "api/orders/" ++ orderId,
                      body := some "delivered" } :: (useKDSPolling.refresh s rnet).2
        returned := true }) ∧
    mutatingCount (useKDSPolling.completeOrder s orderId .success rnet).requests = 1 ∧
    (useKDSPolling.completeOrder s orderId (.httpError msg) rnet =
      { state := s
        requests := [{ method := "PATCH", path := "api/orders/" ++ orderId,
                       body := some "delivered" }]
        returned := false }) ∧
    (useKDSPolling.completeOrder s orderId (.networkError msg) rnet =
      { state := s
        requests := [{ method := "PATCH", path := "api/orders/" ++ orderId,
                       body := some "delivered" }]
        returned := false }) ∧
    (useKDSPolling.bumpOrder s orderId .success rnet =
      useKDSPolling.markOrderReady s orderId .success rnet) ∧
    mutatingCount (useKDSPolling.bumpOrder s orderId .success rnet).requests = 1 ∧
    (useKDSPolling.bumpOrder s orderId (.httpError msg) rnet =
      useKDSPolling.markOrderReady s orderId (.httpError msg) rnet) ∧
    (useKDSPolling.toggleItem s orderId itemIndex rnet =
      { state := (useKDSPolling.refresh s rnet).1
        requests := (useKDSPolling.refresh s rnet).2
        returned := true }) ∧
    mutatingCount (useKDSPolling.toggleItem s orderId itemIndex rnet).requests = 0 ∧
    (useKDSPolling.recallLastOrder s rnet =
      { state := s, requests := [], returned := false }) ∧
    mutatingCount (useKDSPolling.recallLastOrder s rnet).requests = 0 := by
  refine ⟨rfl, rfl, rfl, rfl, rfl, rfl, rfl, rfl, rfl, rfl, rfl, rfl, rfl, rfl, rfl,
    rfl, rfl, rfl, rfl⟩

/-- C10: every order returned by `fetchKDSOrders` — and hence every cached
orders state produced by a successful poll of `fetchData` — has status in
{new, preparing, ready}: cancelled and delivered raw orders are filtered
out and a pending raw status is mapped to new before the list is
returned. -/
theorem fetchKDSOrders_active_statuses (raws : List RawOrder) (tick : Nat)
    (s : PollState) (o : KDSOrder) :
    (o ∈ (kdsApi.fetchKDSOrders raws tick).orders →
      o.status = BackendOrderStatus.new ∨ o.status = BackendOrderStatus.preparing ∨
        o.status = BackendOrderStatus.ready) ∧
    (o ∈ (useKDSPolling.fetchData s (.success raws tick)).1.orders →
      o.status = BackendOrderStatus.new ∨ o.status = BackendOrderStatus.preparing ∨
        o.status = BackendOrderStatus.ready) := by
  have hmain : o ∈ (kdsApi.fetchKDSOrders raws tick).orders →
      o.status = BackendOrderStatus.new ∨ o.status = BackendOrderStatus.preparing ∨
        o.status = BackendOrderStatus.ready := by
    intro h
    simp only [kdsApi.fetchKDSOrders, List.mem_map, List.mem_filter] at h
    obtain ⟨raw, ⟨_, hact⟩, rfl⟩ := h
    simp only [Bool.and_eq_true, bne_iff_ne, ne_eq] at hact
    obtain ⟨hc, hd⟩ := hact
    show mapOrderStatus raw.status = _ ∨ mapOrderStatus raw.status = _ ∨
      mapOrderStatus raw.status = _
    cases hst : raw.status <;> simp [mapOrderStatus, hst] at hc hd ⊢
  exact ⟨hmain, fun h => hmain h⟩

/-- Witness for C10: a raw pending order survives the filter and reaches
the list with status new. -/
theorem fetchKDSOrders_active_statuses_witness :
    (mapRawOrder { id := "ab12", status := BackendOrderStatus.pending }).status =
        BackendOrderStatus.new ∨
      (mapRawOrder { id := "ab12", status := BackendOrderStatus.pending }).status =
        BackendOrderStatus.preparing ∨
      (mapRawOrder { id := "ab12", status := BackendOrderStatus.pending }).status =
        BackendOrderStatus.ready :=
  (fetchKDSOrders_active_statuses [{ id := "ab12", status := BackendOrderStatus.pending }]
      5 initPollState
      (mapRawOrder { id := "ab12", status := BackendOrderStatus.pending })).1
    (by simp [kdsApi.fetchKDSOrders])

/-- Helper: a skipped `sendMessage` (empty or duplicate trimmed text) is a
complete no-op: no request, `null` returned, state untouched. -/
theorem sendMessage_skip (s : SessionState) (text : String) (net : BrainFetchOutcome)
    (h : strTrim text = "" ∨ strTrim text = s.lastMessageRef) :
    sendMessage s text net = { state := s, returned := none, requests := [] } := by
  simp [sendMessage, h]

/-- Helper: every request issued by a `sendMessage` invocation carries the
session id of the state it started from. -/
theorem sendMessage_requests_session_id (s : SessionState) (text : String)
    (net : BrainFetchOutcome) :
    ∀ req ∈ (sendMessage s text net).requests, req.session_id = s.sessionId := by
  intro req hreq
  by_cases hc : strTrim text = "" ∨ strTrim text = s.lastMessageRef
  · simp [sendMessage, hc] at hreq
  · cases net <;> simp [sendMessage, hc] at hreq <;> simp [hreq]

/-- Helper: after a non-skipped `sendMessage` whose outcome does not rotate
the session (a failure, or a success without `conversationClosed` plus
`newSessionId`), the dedupe slot holds the trimmed text. -/
theorem sendMessage_keeps_dedupe_slot (s : SessionState) (text : String)
    (net : BrainFetchOutcome)
    (htrim : strTrim text ≠ "") (hdedupe : strTrim text ≠ s.lastMessageRef)
    (hnorot : ∀ resp, net = .success resp →
      resp.conversationClosed = false ∨ resp.newSessionId = none) :
    (sendMessage s text net).state.lastMessageRef = strTrim text := by
  cases net with
  | failure msg => simp [sendMessage, htrim, hdedupe]
  | success resp =>
      rcases hnorot resp rfl with hc | hn
      · simp [sendMessage, handleConversationClosed, htrim, hdedupe, hc]
      · by_cases hcc : resp.conversationClosed <;>
          simp [sendMessage, handleConversationClosed, htrim, hdedupe, hcc, hn]

/-- C1: a non-skipped `sendMessage` whose response carries
`conversationClosed` and a (truthy, i.e. nonempty) `newSessionId` performs
session rotation: the
new id becomes the current session id and is persisted, the conversation
history is empty immediately after, the dedupe slot is cleared, the
response is still retained in `lastFullResponse`, and every request issued
by a subsequent `sendMessage` from the resulting state carries the new
session id. -/
theorem sendMessage_session_rotation (s : SessionState) (text : String)
    (resp : BrainV2Response) (nid : String)
    (htrim : strTrim text ≠ "") (hdedupe : strTrim text ≠ s.lastMessageRef)
    (hclosed : resp.conversationClosed = true)
    (hnew : resp.newSessionId = some nid) (hnid : nid ≠ "") :
    (sendMessage s text (.success resp)).state.sessionId = nid ∧
    (sendMessage s text (.success resp)).state.persistedSessionId = nid ∧
    (sendMessage s text (.success resp)).state.conversationHistory = [] ∧
    (sendMessage s text (.success resp)).state.lastMessageRef = "" ∧
    (sendMessage s text (.success resp)).state.lastFullResponse = some resp ∧
    ∀ (t : String) (net2 : BrainFetchOutcome),
      ∀ req ∈ (sendMessage (sendMessage s text (.success resp)).state t net2).requests,
        req.session_id = nid := by
  have hsid : (sendMessage s text (.success resp)).state.sessionId = nid := by
    simp [sendMessage, handleConversationClosed, htrim, hdedupe, hclosed, hnew, hnid]
  refine ⟨hsid, ?_, ?_, ?_, ?_, ?_⟩
  · simp [sendMessage, handleConversationClosed, htrim, hdedupe, hclosed, hnew, hnid]
  · simp [sendMessage, handleConversationClosed, htrim, hdedupe, hclosed, hnew, hnid]
  · simp [sendMessage, handleConversationClosed, htrim, hdedupe, hclosed, hnew, hnid]
  · simp [sendMessage, handleConversationClosed, htrim, hdedupe, hclosed, hnew, hnid]
  · intro t net2 req hreq
    exact (sendMessage_requests_session_id _ t net2 req hreq).trans hsid

/-- Witness for C1: a concrete closing exchange rotates "S1" to "S2". -/
theorem sendMessage_session_rotation_witness :
    let s0 : SessionState := {
      sessionId := "S1", persistedSessionId := "S1", conversationHistory := [],
      isThinking := false, lastResponse := "", lastFullResponse := none,
      error := none, lastMessageRef := "" }
    let resp : BrainV2Response := {
      reply := some "Dodane do koszyka", conversationClosed := true,
      newSessionId := some "S2" }
    (sendMessage s0 "dwa piwa" (.success resp)).state.sessionId = "S2" ∧
    (sendMessage s0 "dwa piwa" (.success resp)).state.persistedSessionId = "S2" ∧
    (sendMessage s0 "dwa piwa" (.success resp)).state.conversationHistory = [] ∧
    (sendMessage s0 "dwa piwa" (.success resp)).state.lastMessageRef = "" ∧
    (sendMessage s0 "dwa piwa" (.success resp)).state.lastFullResponse = some resp ∧
    ∀ (t : String) (net2 : BrainFetchOutcome),
      ∀ req ∈ (sendMessage (sendMessage s0 "dwa piwa" (.success resp)).state t net2).requests,
        req.session_id = "S2" :=
  sendMessage_session_rotation _ "dwa piwa" _ "S2" (by decide) (by decide) rfl rfl
    (by decide)

/-- C3 counterexample: when the first response closes the conversation with
a new session id, the rotation clears the dedupe slot, so the immediately
repeated identical `sendMessage` issues a second network request — two
requests in total where the claim allows exactly one, and the second call
does issue a request rather than none. -/
theorem sendMessage_dedupe_counterexample :
    let s0 : SessionState := {
      sessionId := "S1", persistedSessionId := "S1", conversationHistory := [],
      isThinking := false, lastResponse := "", lastFullResponse := none,
      error := none, lastMessageRef := "" }
    let resp : BrainV2Response := {
      conversationClosed := true, newSessionId := some "S2" }
    ((sendMessage s0 "piwo" (.success resp)).requests.length +
      (sendMessage (sendMessage s0 "piwo" (.success resp)).state "piwo"
        (.success resp)).requests.length = 2) ∧
    (sendMessage (sendMessage s0 "piwo" (.success resp)).state "piwo"
      (.success resp)).requests.length ≠ 0 := by
  decide

/-- C3 (amended): two back-to-back `sendMessage` calls with identical
non-empty trimmed text issue exactly one network request, provided the
first response does not rotate the session (a `conversationClosed` response
with a `newSessionId` clears the dedupe slot and re-enables the text): the
second call returns null, makes no request, and leaves all session state
unchanged; the no-op on empty trimmed text holds unconditionally. -/
theorem sendMessage_dedupe (s : SessionState) (text : String)
    (net1 net2 : BrainFetchOutcome)
    (htrim : strTrim text ≠ "") (hdedupe : strTrim text ≠ s.lastMessageRef)
    (hnorot : ∀ resp, net1 = .success resp →
      resp.conversationClosed = false ∨ resp.newSessionId = none) :
    (sendMessage s text net1).requests.length = 1 ∧
    sendMessage (sendMessage s text net1).state text net2 =
      { state := (sendMessage s text net1).state, returned := none, requests := [] } ∧
    ∀ t : String, strTrim t = "" →
      sendMessage s t net2 = { state := s, returned := none, requests := [] } := by
  refine ⟨?_, ?_, fun t ht => sendMessage_skip s t net2 (Or.inl ht)⟩
  · cases net1 <;> simp [sendMessage, htrim, hdedupe]
  · exact sendMessage_skip _ text net2
      (Or.inr (sendMessage_keeps_dedupe_slot s text net1 htrim hdedupe hnorot).symm)

/-- Witness for C3: a concrete non-rotating exchange dedupes the repeat. -/
theorem sendMessage_dedupe_witness :
    let s0 : SessionState := {
      sessionId := "S1", persistedSessionId := "S1", conversationHistory := [],
      isThinking := false, lastResponse := "", lastFullResponse := none,
      error := none, lastMessageRef := "" }
    let net1 : BrainFetchOutcome := .success { reply := some "Jasne" }
    let net2 : BrainFetchOutcome := .failure "timeout"
    (sendMessage s0 "piwo" net1).requests.length = 1 ∧
    sendMessage (sendMessage s0 "piwo" net1).state "piwo" net2 =
      { state := (sendMessage s0 "piwo" net1).state, returned := none, requests := [] } ∧
    ∀ t : String, strTrim t = "" →
      sendMessage s0 t net2 = { state := s0, returned := none, requests := [] } :=
  sendMessage_dedupe _ "piwo" _ _ (by decide) (by decide)
    (fun resp h => by cases h; exact Or.inl rfl)

/-- C9: after a `sendMessage` that fails on the network, the dedupe slot —
written before the request was sent — still holds the trimmed text (the
error path does not clear it), so an identical retry is silently skipped
(null, no request, no state change) while the error message is set; a
manual session reset (`startNewConversation`) clears the slot and the same
text issues a request again. -/
theorem sendMessage_error_retry_dropped (s : SessionState) (text msg : String)
    (net2 : BrainFetchOutcome) (nid : String)
    (htrim : strTrim text ≠ "") (hdedupe : strTrim text ≠ s.lastMessageRef) :
    (sendMessage s text (.failure msg)).requests.length = 1 ∧
    (sendMessage s text (.failure msg)).returned = none ∧
    (sendMessage s text (.failure msg)).state.error =
      some "Przepraszam, mam problem z połączeniem." ∧
    (sendMessage s text (.failure msg)).state.lastMessageRef = strTrim text ∧
    sendMessage (sendMessage s text (.failure msg)).state text net2 =
      { state := (sendMessage s text (.failure msg)).state
        returned := none
        requests := [] } ∧
    (sendMessage (startNewConversation (sendMessage s text (.failure msg)).state nid)
        text net2).requests.length = 1 := by
  have hslot : (sendMessage s text (.failure msg)).state.lastMessageRef = strTrim text :=
    sendMessage_keeps_dedupe_slot s text (.failure msg) htrim hdedupe
      (fun resp h => by cases h)
  refine ⟨?_, ?_, ?_, hslot, ?_, ?_⟩
  · simp [sendMessage, htrim, hdedupe]
  · simp [sendMessage, htrim, hdedupe]
  · simp [sendMessage, htrim, hdedupe]
  · exact sendMessage_skip _ text net2 (Or.inr hslot.symm)
  · cases net2 <;>
      simp [sendMessage, startNewConversation, clearHistory, htrim]

/-- Witness for C9: a concrete failed send drops the identical retry. -/
theorem sendMessage_error_retry_dropped_witness :
    let s0 : SessionState := {
      sessionId := "S1", persistedSessionId := "S1", conversationHistory := [],
      isThinking := false, lastResponse := "", lastFullResponse := none,
      error := none, lastMessageRef := "" }
    let net2 : BrainFetchOutcome := .success { reply := some "Jasne" }
    (sendMessage s0 "pizza" (.failure "HTTP 500")).requests.length = 1 ∧
    (sendMessage s0 "pizza" (.failure "HTTP 500")).returned = none ∧
    (sendMessage s0 "pizza" (.failure "HTTP 500")).state.error =
      some "Przepraszam, mam problem z połączeniem." ∧
    (sendMessage s0 "pizza" (.failure "HTTP 500")).state.lastMessageRef = strTrim "pizza" ∧
    sendMessage (sendMessage s0 "pizza" (.failure "HTTP 500")).state "pizza" net2 =
      { state := (sendMessage s0 "pizza" (.failure "HTTP 500")).state
        returned := none
        requests := [] } ∧
    (sendMessage
        (startNewConversation (sendMessage s0 "pizza" (.failure "HTTP 500")).state "S9")
        "pizza" net2).requests.length = 1 :=
  sendMessage_error_retry_dropped _ "pizza" "HTTP 500" _ "S9" (by decide) (by decide)

/-- C6 counterexample: a single `addToCart` call requesting quantity 0
produces an entry of quantity 1 (JS `item.quantity || 1` treats 0 as
unspecified), while the sum of the requested quantities is 0 — so the final
quantity does not equal the sum of the requested quantities. -/
theorem addToCart_zero_quantity_counterexample :
    qtyOf (addToCart { cart := [], restaurant := none }
        { id := "i1", name := "Pierogi", price := 20, quantity := some 0 }
        { id := "r1", name := "Bar Mleczny" } true).cart "i1" = 1 ∧
    (1 : Int) ≠ 0 := by
  exact ⟨rfl, by decide⟩

/-- Helper: adding an item changes exactly the quantity seen for its id, by
the amount added (first-match semantics of `findIndex`). -/
theorem qtyOf_addItemToEntries (cart : List CartEntry) (item : CartItemInput) (q : Int) :
    qtyOf (addItemToEntries cart item q) item.id = qtyOf cart item.id + q := by
  induction cart with
  | nil => simp [addItemToEntries, qtyOf, List.find?]
  | cons e rest ih =>
      by_cases h : e.id = item.id
      · simp [addItemToEntries, h, qtyOf, List.find?]
      · simp only [addItemToEntries, if_neg h]
        have hne : (e.id == item.id) = false := by simp [h]
        simp [qtyOf, List.find?, hne] at ih ⊢
        exact ih

/-- Helper: with the cart bound to the same restaurant (or to none), a
confirmed `addToCart` is exactly the entry update plus the restaurant
binding. -/
theorem addToCart_same_restaurant (s : CartState) (item : CartItemInput)
    (r : CartRestaurant) (h : s.restaurant = none ∨ s.restaurant = some r) :
    addToCart s item r true =
      { cart := addItemToEntries s.cart item (jsNumOr item.quantity 1)
        restaurant := some r } := by
  rcases h with h | h <;> simp [addToCart, h]

/-- Helper: folding a sequence of same-id, same-restaurant `addToCart`
calls accumulates the effective added quantities onto the entry. -/
theorem foldl_addToCart_qty (items : List CartItemInput) (s : CartState)
    (i : String) (r : CartRestaurant)
    (hs : s.restaurant = none ∨ s.restaurant = some r)
    (hid : ∀ it ∈ items, it.id = i) :
    qtyOf ((items.foldl (fun acc it => addToCart acc it r true) s).cart) i =
      qtyOf s.cart i + (items.map (fun it => jsNumOr it.quantity 1)).sum := by
  induction items generalizing s with
  | nil => simp
  | cons it rest ih =>
      have hit : it.id = i := hid it (by simp)
      rw [List.foldl_cons, addToCart_same_restaurant s it r hs,
        ih _ (Or.inr rfl) (fun x hx => hid x (by simp [hx]))]
      have hq : qtyOf (addItemToEntries s.cart it (jsNumOr it.quantity 1)) i =
          qtyOf s.cart i + jsNumOr it.quantity 1 := hit ▸ qtyOf_addItemToEntries s.cart it _
      rw [hq]
      simp [add_assoc]

/-- C6 (amended): for every sequence of `addToCart` calls with the same
item id and the same restaurant, starting from an empty cart, the final
quantity of that entry equals the sum over the calls of the effective added
quantity — the requested quantity when specified and nonzero, and 1 when
unspecified or zero (JS `item.quantity || 1`); in particular the quantity
is never reset by a later call. -/
theorem addToCart_quantity_sum (items : List CartItemInput) (i : String)
    (r : CartRestaurant) (hid : ∀ it ∈ items, it.id = i) :
    qtyOf ((items.foldl (fun acc it => addToCart acc it r true)
        { cart := [], restaurant := none }).cart) i =
      (items.map (fun it => jsNumOr it.quantity 1)).sum := by
  have h := foldl_addToCart_qty items { cart := [], restaurant := none } i r
    (Or.inl rfl) hid
  simpa [qtyOf, List.find?] using h

/-- Witness for C6: three same-id calls requesting 2, unspecified and 0 end
at quantity 2 + 1 + 1. -/
theorem addToCart_quantity_sum_witness :
    qtyOf ((([{ id := "i1", name := "Pierogi", price := 20, quantity := some 2 },
            { id := "i1", name := "Pierogi", price := 20, quantity := none },
            { id := "i1", name := "Pierogi", price := 20, quantity := some 0 }] :
          List CartItemInput).foldl
        (fun acc it => addToCart acc it { id := "r1", name := "Bar Mleczny" } true)
        { cart := [], restaurant := none }).cart) "i1" =
      (([{ id := "i1", name := "Pierogi", price := 20, quantity := some 2 },
        { id := "i1", name := "Pierogi", price := 20, quantity := none },
        { id := "i1", name := "Pierogi", price := 20, quantity := some 0 }] :
          List CartItemInput).map (fun it => jsNumOr it.quantity 1)).sum :=
  addToCart_quantity_sum _ "i1" _ (by decide)
